import Mathlib

/-!
# Habit tracker backend: bootstrap layer (`src/backend/server.js`)

A shallow embedding of the server bootstrap file: the configuration read from the
process environment, the Express middleware stack assembled by the `app.use` /
`app.get` calls, the two fallback handlers, and the start-up sequence that probes
the database before binding the listener.

Conventions of the embedding.

* `process.env` is a record of the three variables the file reads; a variable is
  `none` when it is not set (JavaScript `undefined`).
* `a || b` on an environment variable is `jsOr`: `undefined` and the empty string
  are falsy, every other string is truthy.
* A middleware is a function from the request and the per-request state to an
  `Outcome`: it calls `next()`, calls `next(err)` / throws, or ends the response.
* The handlers written in `server.js` (health check, 404 handler, error handler,
  probe callback) are embedded concretely.  The middlewares imported from other
  modules (body parsers, cookie parser, static file servers, the four route groups)
  and the socket.io server attached to the same listener are parameters, collected in
  `Externals`.  The `cors` package, whose behaviour the cross-origin properties depend
  on, is embedded for the one option shape `server.js` passes to it (a string origin
  and `credentials: true`).
* `res.status(code).json(payload)` is embedded with what Express does when it sends:
  no body for a HEAD request, and status 304 without a body for a conditional GET or
  HEAD that it finds fresh.
* A request whose path lies under `/socket.io/` is taken by the socket.io server
  before the Express stack sees it.
-/

namespace HabitTracker

/-! ## JavaScript values and the process environment -/

/-- The JavaScript values that `PORT` can hold: a number or a string. -/
inductive JsVal where
  | num (n : Int)
  | str (s : String)
  deriving DecidableEq, Repr

/-- Whether a JavaScript value is a number holding an integer
(`Number.isInteger`). A string is never one, whatever its content. -/
def JsVal.isInteger : JsVal → Bool
  | .num _ => true
  | .str _ => false

/-- The part of `process.env` that `server.js` reads. `none` is `undefined`. -/
structure Env where
  FRONTEND_URL : Option String
  PORT : Option String
  NODE_ENV : Option String
  deriving DecidableEq, Repr

/-- JavaScript `v || d` for an environment variable `v`: `d` when `v` is
`undefined` or the empty string, `inj v` otherwise. -/
def jsOr {α : Type} (inj : String → α) (v : Option String) (d : α) : α :=
  match v with
  | none => d
  | some s => if s = "" then d else inj s

/-- Options object handed to `cors(...)` and to `new Server(httpServer, { cors })`. -/
structure CorsOptions where
  origin : String
  credentials : Bool
  deriving DecidableEq, Repr

/-- Lines 24-29: the `cors` options of the socket.io server. -/
def ioCorsOptions (env : Env) : CorsOptions :=
  { origin := jsOr id env.FRONTEND_URL "http://localhost:5173"
    credentials := true }

/-- Lines 32-35: the options passed to `cors(...)` for the HTTP pipeline. -/
def appCorsOptions (env : Env) : CorsOptions :=
  { origin := jsOr id env.FRONTEND_URL "http://localhost:5173"
    credentials := true }

/-- Line 72: `const PORT = process.env.PORT || 5000`. -/
def PORT (env : Env) : JsVal :=
  jsOr JsVal.str env.PORT (JsVal.num 5000)

/-- Line 86: `process.env.NODE_ENV || 'development'`. -/
def environmentName (env : Env) : String :=
  jsOr id env.NODE_ENV "development"

/-- The runtime configuration: every value `server.js` derives from the environment. -/
structure Config where
  port : JsVal
  frontendOrigin : String
  gatewayOrigin : String
  environmentName : String
  deriving DecidableEq, Repr

/-- Reading the configuration. A total function: no branch throws. -/
def loadConfig (env : Env) : Config :=
  { port := PORT env
    frontendOrigin := (appCorsOptions env).origin
    gatewayOrigin := (ioCorsOptions env).origin
    environmentName := environmentName env }

/-! ## Start-up sequence (lines 74-88) -/

/-- What the process has done so far. `exited` is the exit status once the process has
ended, by `process.exit` or by an error nobody catches; from then on no statement has
any effect. -/
structure Proc where
  stderr : List String := []
  stdout : List String := []
  exited : Option Nat := none
  listenCalls : List JsVal := []
  deriving DecidableEq, Repr

/-- Runs a statement unless the process has already terminated. -/
def Proc.run (p : Proc) (f : Proc → Proc) : Proc :=
  if p.exited.isSome then p else f p

/-- The statement `console.error(msg)`. -/
def Proc.consoleError (p : Proc) (msg : String) : Proc :=
  p.run fun q => { q with stderr := q.stderr ++ [msg] }

/-- The statement `console.log(msg)`. -/
def Proc.consoleLog (p : Proc) (msg : String) : Proc :=
  p.run fun q => { q with stdout := q.stdout ++ [msg] }

/-- The statement `process.exit(code)`: terminates the process on the spot. -/
def Proc.exit (p : Proc) (code : Nat) : Proc :=
  p.run fun q => { q with exited := some code }

/-- Rendering of a JavaScript value in a template literal. -/
def JsVal.render : JsVal → String
  | .num n => toString n
  | .str s => s

/-- The statement `httpServer.listen(port, cb)`. The call is recorded. `binds` tells
whether Node gets a listener bound for the value: it throws on a port outside the
range 0 to 65535, and it reports an address it cannot bind with an `error` event.
`server.js` catches neither, so the process then ends with status 1 and `cb` never
runs; otherwise `cb` runs once the listener is bound. -/
def Proc.listen (p : Proc) (binds : JsVal → Bool) (port : JsVal) (cb : Proc → Proc) : Proc :=
  p.run fun q =>
    if binds port then cb { q with listenCalls := q.listenCalls ++ [port] }
    else
      { q with
        listenCalls := q.listenCalls ++ [port]
        stderr := q.stderr ++ ["Uncaught error: listen " ++ port.render]
        exited := some 1 }

/-- Result object of a successful query: `res.rows[0].now` of the first row, when
there is one. `SELECT NOW()` yields exactly one row. -/
structure QueryResult where
  firstRowNow : String
  deriving DecidableEq, Repr

/-- The callback passed to `pool.query('SELECT NOW()', ...)`, run with the
`(err, res)` pair the pool hands over: `err` is `some _` on failure. -/
def probeCallback (env : Env) (binds : JsVal → Bool) (err : Option String)
    (res : QueryResult) (p : Proc) : Proc :=
  let p := if err.isSome then
      (p.consoleError ("Database connection failed: " ++ err.getD "")).exit 1
    else p
  let p := p.consoleLog ("Database connected at: " ++ res.firstRowNow)
  p.listen binds (PORT env) fun q =>
    let q := q.consoleLog ("Server running on port " ++ (PORT env).render)
    let q := q.consoleLog "WebSocket server ready"
    q.consoleLog ("Environment: " ++ environmentName env)

/-- The start-up sequence from a fresh process. -/
def startup (env : Env) (binds : JsVal → Bool) (err : Option String)
    (res : QueryResult) : Proc :=
  probeCallback env binds err res {}

/-! ## Requests, responses, middleware -/

/-- HTTP request methods. `other` stands for any method not listed by name. -/
inductive Method where
  | GET | HEAD | POST | PUT | PATCH | DELETE | OPTIONS
  | other (name : String)
  deriving DecidableEq, Repr

/-- An incoming request: `req.method`, `req.path`, `req.headers` (names in lower
case, as Node delivers them) and the raw body. -/
structure Request where
  method : Method
  path : String
  headers : List (String × String) := []
  body : String := ""
  deriving DecidableEq, Repr

/-- The expression `req.headers[name]`. -/
def Request.header (req : Request) (name : String) : Option String :=
  req.headers.lookup name

/-- A response payload. `json` is an object whose values are strings, which is the
shape of every payload `server.js` sends; `other` is anything a collaborator sends
(a file, HTML, ...). -/
inductive Body where
  | empty
  | json (fields : List (String × String))
  | other (content : String)
  deriving DecidableEq, Repr

/-- A finished response as it goes to the client: status code, the headers set by the
stages, and the body. Headers added by the HTTP layer itself (`Content-Length`,
`ETag`, `X-Powered-By`) are left out. -/
structure Response where
  status : Nat
  headers : List (String × String)
  body : Body
  deriving DecidableEq, Repr

/-- An error value travelling through `next(err)`. Body parsers attach a `status`
(400 for a malformed body, 413 for one too large, ...). -/
structure Err where
  message : String
  status : Option Nat := none
  deriving DecidableEq, Repr

/-- Per-request state that later stages see: the headers already set on `res`, and
the properties earlier stages added to `req` (`req.body`, `req.cookies`). -/
structure State where
  resHeaders : List (String × String) := []
  reqProps : List (String × String) := []
  deriving DecidableEq, Repr

/-- How a middleware finishes: `next()`, `next(err)` (or a throw), or by ending the
response. These are exclusive: a stage that has ended the response is done. -/
inductive Outcome where
  | next (st : State)
  | fail (err : Err)
  | send (res : Response)
  deriving DecidableEq, Repr

/-- A handler of arity 2 or 3: `(req, res, next) => ...`. -/
abbrev Middleware := Request → State → Outcome

/-- A handler of arity 4: `(err, req, res, next) => ...`. It also returns what it
wrote with `console.error`. -/
abbrev ErrorMiddleware := Err → Request → State → List Err × Outcome

/-- Names of the stages of the pipeline. -/
inductive StageKind where
  | crossOrigin | jsonBody | urlencodedBody | cookies | staticFiles
  | health | apiGroup | notFound | errorFallback
  deriving DecidableEq, Repr

/-- One entry of the Express stack. -/
inductive Layer where
  -- registered by `app.use(fn)` (`mount = none`) or `app.use(path, fn)`
  | use (kind : StageKind) (mount : Option String) (fn : Middleware)
  -- registered by `app.get(path, fn)`
  | get (kind : StageKind) (path : String) (fn : Middleware)
  -- registered by `app.use(fn)` with a four-argument `fn`
  | useError (kind : StageKind) (fn : ErrorMiddleware)

/-- The stage name of a layer. -/
def Layer.kind : Layer → StageKind
  | .use k _ _ => k
  | .get k _ _ => k
  | .useError k _ => k

/-- The characters of a path with ASCII letters in lower case: Express compares
paths without regard to letter case (`case sensitive routing` is off by default). -/
def lowerChars (s : String) : List Char :=
  s.data.map Char.toLower

/-- Path test of `app.use(mount, fn)`: the request path is the mount path or lies
below it. -/
def mountMatches (mount path : String) : Bool :=
  lowerChars path == lowerChars mount
    || (lowerChars mount ++ ['/']).isPrefixOf (lowerChars path)

/-- Path test of `app.get(path, fn)`: the whole path, with an optional trailing
slash (`strict routing` is off by default). -/
def routePathMatches (pattern path : String) : Bool :=
  lowerChars path == lowerChars pattern || lowerChars path == lowerChars pattern ++ ['/']

/-- Method test of a route registered with `app.get`: GET, and HEAD since no HEAD
handler is registered for the route. -/
def getHandlesMethod : Method → Bool
  | .GET => true
  | .HEAD => true
  | _ => false

/-- Whether a layer is applicable to a request that is not in the error state. -/
def Layer.applies : Layer → Request → Bool
  | .use _ none _, _ => true
  | .use _ (some m) _, req => mountMatches m req.path
  | .get _ p _, req => routePathMatches p req.path && getHandlesMethod req.method
  | .useError _ _, _ => false

/-- The outcome of a run: the response sent and what went to `console.error`. -/
structure Result where
  response : Response
  errorLog : List Err
  deriving DecidableEq, Repr

/-- Adds earlier log lines in front of a result. -/
def Result.withLog (log : List Err) (r : Result) : Result :=
  { r with errorLog := log ++ r.errorLog }

/-- Method name as it appears on the request line. -/
def Method.name : Method → String
  | .GET => "GET" | .HEAD => "HEAD" | .POST => "POST" | .PUT => "PUT"
  | .PATCH => "PATCH" | .DELETE => "DELETE" | .OPTIONS => "OPTIONS"
  | .other n => n

/-- Express's built-in last resort, used when the stack is exhausted: a 404 page when
no error is pending, otherwise the error's own status (500 when it has none in the
4xx/5xx range) with the error message. -/
def finalHandler (req : Request) (st : State) : Option Err → Result
  | none =>
    { response :=
        { status := 404, headers := st.resHeaders
          body := .other ("Cannot " ++ req.method.name ++ " " ++ req.path) }
      errorLog := [] }
  | some e =>
    { response :=
        { status := match e.status with
            | some s => if 400 ≤ s ∧ s < 600 then s else 500
            | none => 500
          headers := st.resHeaders
          body := .other e.message }
      errorLog := [e] }

/-- Express's dispatch loop over the stack. With no error pending, the layers that
apply run in order and four-argument handlers are skipped; once a stage has failed
with `err`, only four-argument handlers run. A stage that ends the response ends
the run. -/
def dispatch : List Layer → Request → State → Option Err → Result
  | [], req, st, pending => finalHandler req st pending
  | .useError _ _ :: rest, req, st, none => dispatch rest req st none
  | .useError _ fn :: rest, req, st, some e =>
    match fn e req st with
    | (log, .next st') => (dispatch rest req st' none).withLog log
    | (log, .fail e') => (dispatch rest req st (some e')).withLog log
    | (log, .send res) => { response := res, errorLog := log }
  | .use _ _ _ :: rest, req, st, some e => dispatch rest req st (some e)
  | .get _ _ _ :: rest, req, st, some e => dispatch rest req st (some e)
  | .use k m fn :: rest, req, st, none =>
    if (Layer.use k m fn).applies req then
      match fn req st with
      | .next st' => dispatch rest req st' none
      | .fail e => dispatch rest req st (some e)
      | .send res => { response := res, errorLog := [] }
    else dispatch rest req st none
  | .get k p fn :: rest, req, st, none =>
    if (Layer.get k p fn).applies req then
      match fn req st with
      | .next st' => dispatch rest req st' none
      | .fail e => dispatch rest req st (some e)
      | .send res => { response := res, errorLog := [] }
    else dispatch rest req st none

/-! ## `Date.prototype.toISOString` -/

/-- The decimal digit character of `n % 10`. -/
def digit (n : Nat) : Char :=
  match n % 10 with
  | 0 => '0' | 1 => '1' | 2 => '2' | 3 => '3' | 4 => '4'
  | 5 => '5' | 6 => '6' | 7 => '7' | 8 => '8' | _ => '9'

/-- Two decimal digits, zero padded. -/
def pad2 (n : Nat) : List Char := [digit (n / 10), digit n]

/-- Three decimal digits, zero padded. -/
def pad3 (n : Nat) : List Char := [digit (n / 100), digit (n / 10), digit n]

/-- Four decimal digits, zero padded. -/
def pad4 (n : Nat) : List Char :=
  [digit (n / 1000), digit (n / 100), digit (n / 10), digit n]

/-- Six decimal digits, zero padded. -/
def pad6 (n : Nat) : List Char :=
  [digit (n / 100000), digit (n / 10000), digit (n / 1000), digit (n / 100),
   digit (n / 10), digit n]

/-- Calendar fields of a time value, in UTC. -/
structure DateFields where
  year : Int
  month : Nat
  day : Nat
  hour : Nat
  minute : Nat
  second : Nat
  millisecond : Nat
  deriving DecidableEq, Repr

/-- The UTC calendar fields of a time value `t` (milliseconds since the epoch) in the
proleptic Gregorian calendar. The day number is `t / 86400000` rounded down. Days are
counted in 400-year eras of 146097 days that begin on 1 March; inside an era a day is
located by century (36524 days, the last one a day longer), four-year cycle (1461
days) and year (365 days, the last of a cycle a day longer), and the month by the
five-month pattern of 153 days that starts in March. -/
def dateFields (t : Int) : DateFields :=
  let ms := (t % 86400000).toNat
  let z := t / 86400000 + 719468
  let era := z / 146097
  let doe := (z % 146097).toNat
  let c := min (doe / 36524) 3
  let q := min ((doe - 36524 * c) / 1461) 24
  let k := min ((doe - 36524 * c - 1461 * q) / 365) 3
  let yoe := 100 * c + 4 * q + k
  let doy := doe - 36524 * c - 1461 * q - 365 * k
  let mp := (5 * doy + 2) / 153
  let m := if mp < 10 then mp + 3 else mp - 9
  { year := (yoe : Int) + era * 400 + (if m ≤ 2 then 1 else 0)
    month := m
    day := doy - (153 * mp + 2) / 5 + 1
    hour := ms / 3600000
    minute := ms / 60000 % 60
    second := ms / 1000 % 60
    millisecond := ms % 1000 }

/-- The year part of the ISO format: four digits for years 0 to 9999, otherwise a
sign and six digits. -/
def yearChars (y : Int) : List Char :=
  if 0 ≤ y ∧ y ≤ 9999 then pad4 y.toNat
  else (if y < 0 then '-' else '+') :: pad6 y.natAbs

/-- The ISO format of calendar fields: `YYYY-MM-DDTHH:mm:ss.sssZ`. -/
def isoChars (f : DateFields) : List Char :=
  yearChars f.year ++ '-' :: pad2 f.month ++ '-' :: pad2 f.day ++ 'T' :: pad2 f.hour
    ++ ':' :: pad2 f.minute ++ ':' :: pad2 f.second ++ '.' :: pad3 f.millisecond ++ ['Z']

/-- A time value: milliseconds since the epoch, within 100 000 000 days either side
of it. `new Date()` always holds one, the reading of the system clock. -/
abbrev TimeValue := { t : Int // -8640000000000000 ≤ t ∧ t ≤ 8640000000000000 }

/-- The call `date.toISOString()` on a date holding the time value `t`. -/
def toISOString (t : TimeValue) : String :=
  String.mk (isoChars (dateFields t.val))

/-! ## An ISO-8601 checker, independent of the formatter -/

/-- Value of a decimal digit character. -/
def digitValue (c : Char) : Option Nat :=
  if c.isDigit then some (c.toNat - 48) else none

/-- Value of a string of decimal digits. -/
def number : List Char → Option Nat
  | [] => none
  | cs => cs.foldlM (fun acc c => (digitValue c).map fun d => acc * 10 + d) 0

/-- Gregorian leap years. -/
def isLeapYear (y : Int) : Bool :=
  y % 4 = 0 ∧ (y % 100 ≠ 0 ∨ y % 400 = 0)

/-- Number of days of month `m` of year `y`. -/
def daysInMonth (y : Int) (m : Nat) : Nat :=
  if m = 2 then (if isLeapYear y then 29 else 28)
  else if m = 4 ∨ m = 6 ∨ m = 9 ∨ m = 11 then 30
  else 31

/-- Reads the year: `+YYYYYY`, `-YYYYYY` (not minus zero) or `YYYY`; returns it with
the rest of the text. -/
def parseYear : List Char → Option (Int × List Char)
  | s :: a :: b :: c :: d :: e :: f :: rest =>
    if s = '+' then (number [a, b, c, d, e, f]).map fun n => (Int.ofNat n, rest)
    else if s = '-' then
      (number [a, b, c, d, e, f]).bind fun n =>
        if n = 0 then none else some (-Int.ofNat n, rest)
    else (number [s, a, b, c]).map fun n => (Int.ofNat n, d :: e :: f :: rest)
  | _ => none

/-- Whether a string is a complete ISO-8601 UTC date-time in extended format,
`YYYY-MM-DDTHH:mm:ss.sssZ` or with an expanded year `±YYYYYY-...`, denoting a day
that exists in the calendar and a time of day that exists on the clock. -/
def isISO8601 (s : String) : Bool :=
  match parseYear s.data with
  | some (y, [c1, m1, m2, c2, d1, d2, t, h1, h2, c3, n1, n2, c4, s1, s2, c5, f1, f2, f3, z]) =>
    match number [m1, m2], number [d1, d2], number [h1, h2], number [n1, n2],
        number [s1, s2], number [f1, f2, f3] with
    | some mo, some d, some h, some mi, some se, some _ =>
      c1 == '-' && c2 == '-' && t == 'T' && c3 == ':' && c4 == ':' && c5 == '.' && z == 'Z'
        && decide (1 ≤ mo) && decide (mo ≤ 12) && decide (1 ≤ d)
        && decide (d ≤ daysInMonth y mo)
        && decide (h < 24) && decide (mi < 60) && decide (se < 60)
    | _, _, _, _, _, _ => false
  | _ => false

/-! ## The `cors` package, for the options `server.js` passes

`cors(options)` with a string `origin` does not compare that string with the `Origin`
header of the request. It writes the configured origin into
`Access-Control-Allow-Origin` and lets the request continue; whether the response may
be read is decided by the browser. A request with method `OPTIONS` is treated as a
preflight and answered by the middleware itself (`preflightContinue` is off by
default) with status 204 (`optionsSuccessStatus`). -/

/-- Headers for the configured origin: `*` alone, or the fixed origin with `Vary`. -/
def corsOriginHeaders (o : CorsOptions) : List (String × String) :=
  if o.origin = "*" then [("Access-Control-Allow-Origin", "*")]
  else [("Access-Control-Allow-Origin", o.origin), ("Vary", "Origin")]

/-- Header for `credentials: true`. -/
def corsCredentialsHeaders (o : CorsOptions) : List (String × String) :=
  if o.credentials then [("Access-Control-Allow-Credentials", "true")] else []

/-- Preflight only: the default method list, and the requested headers echoed back. -/
def corsPreflightHeaders (req : Request) : List (String × String) :=
  ("Access-Control-Allow-Methods", "GET,HEAD,PUT,PATCH,POST,DELETE")
    :: ("Vary", "Access-Control-Request-Headers")
    :: (match req.header "access-control-request-headers" with
        | some h => if h = "" then [] else [("Access-Control-Allow-Headers", h)]
        | none => [])

/-- The middleware returned by `cors(o)`. -/
def cors (o : CorsOptions) : Middleware := fun req st =>
  if o.origin = "" then .next st
  else if req.method = .OPTIONS then
    .send
      { status := 204
        headers := st.resHeaders ++ corsOriginHeaders o ++ corsCredentialsHeaders o
          ++ corsPreflightHeaders req ++ [("Content-Length", "0")]
        body := .empty }
  else
    .next { st with
      resHeaders := st.resHeaders ++ corsOriginHeaders o ++ corsCredentialsHeaders o }

/-! ## The handlers written in `server.js` -/

/-- The middlewares and routers that `server.js` imports and mounts, the socket.io
server it attaches to the listener, and the validator comparison Express delegates to
the `fresh` package: their code is outside this file, so they are arbitrary. -/
structure Externals where
  -- `express.json()`
  json : Middleware
  -- `express.urlencoded({ extended: true })`
  urlencoded : Middleware
  -- `cookieParser()`
  cookieParser : Middleware
  -- `express.static('uploads')`
  uploadsStatic : Middleware
  -- `express.static('music')`
  musicStatic : Middleware
  -- the routers mounted under `/api/auth`, `/api/habits`, `/api/friends`, `/api/music`
  authRoutes : Middleware
  habitRoutes : Middleware
  friendRoutes : Middleware
  musicRoutes : Middleware
  -- `new Server(httpServer, ...)` with the handlers of `initializeSocket(io)`
  socketServer : Request → Response
  -- comparison of `If-None-Match` / `If-Modified-Since` / `Cache-Control` with the
  -- `ETag` of the payload and the `Last-Modified` header set so far
  freshValidators : Request → State → List (String × String) → Bool

/-- Whether the request carries a non-empty header of the given name. -/
def headerSet (req : Request) (name : String) : Bool :=
  match req.header name with
  | some v => v != ""
  | none => false

/-- Whether the request is conditional: it has `If-Modified-Since` or
`If-None-Match`. -/
def conditional (req : Request) : Bool :=
  headerSet req "if-modified-since" || headerSet req "if-none-match"

/-- The `fresh` package on the request headers: a request that is not conditional is
never fresh; `If-None-Match: *` alone, without `If-Modified-Since` and without
`Cache-Control`, always is; every other case is decided by comparing validators. -/
def fresh (ext : Externals) (req : Request) (st : State)
    (payload : List (String × String)) : Bool :=
  if conditional req then
    if req.header "if-none-match" = some "*" ∧ headerSet req "if-modified-since" = false
        ∧ headerSet req "cache-control" = false then true
    else ext.freshValidators req st payload
  else false

/-- The getter `req.fresh`, read while sending with status `code`: only a response
with a 2xx status or 304 to a GET or HEAD request can be fresh. -/
def reqFresh (ext : Externals) (req : Request) (st : State) (code : Nat)
    (payload : List (String × String)) : Bool :=
  (decide (200 ≤ code ∧ code < 300) || decide (code = 304))
    && (decide (req.method = .GET) || decide (req.method = .HEAD))
    && fresh ext req st payload

/-- Entity headers, which Express removes from a response without content. -/
def isEntityHeader (h : String × String) : Bool :=
  lowerChars h.1 == lowerChars "content-type" || lowerChars h.1 == lowerChars "content-length"
    || lowerChars h.1 == lowerChars "transfer-encoding"

/-- The call `res.status(code).json(payload)`, which ends the response. A fresh
request gets status 304 instead of `code`; a response with status 204 or 304 loses its
entity headers and its body; a HEAD request gets the headers and no body. -/
def resJson (ext : Externals) (req : Request) (st : State) (code : Nat)
    (payload : List (String × String)) : Outcome :=
  if reqFresh ext req st code payload = true ∨ code = 204 ∨ code = 304 then
    .send
      { status := if reqFresh ext req st code payload then 304 else code
        headers := st.resHeaders.filter fun h => !isEntityHeader h
        body := .empty }
  else
    .send
      { status := code
        headers := st.resHeaders ++ [("Content-Type", "application/json; charset=utf-8")]
        body := if req.method = .HEAD then .empty else .json payload }

/-- Lines 45-47: the health check. `clock` is what `new Date()` reads. The status is
the default one, 200. -/
def healthHandler (ext : Externals) (clock : TimeValue) : Middleware := fun req st =>
  resJson ext req st 200 [("status", "ok"), ("timestamp", toISOString clock)]

/-- Lines 56-58: the 404 handler. -/
def notFoundHandler (ext : Externals) : Middleware := fun req st =>
  resJson ext req st 404 [("error", "Route not found")]

/-- Lines 61-64: the error handler. It prints the error and answers without it. -/
def errorHandler (ext : Externals) : ErrorMiddleware := fun err req st =>
  ([err], resJson ext req st 500 [("error", "Internal server error")])

/-- Lines 32-64: the stack, in the order of the `app.use` / `app.get` calls. -/
def app (env : Env) (ext : Externals) (clock : TimeValue) : List Layer :=
  [ .use .crossOrigin none (cors (appCorsOptions env)),
    .use .jsonBody none ext.json,
    .use .urlencodedBody none ext.urlencoded,
    .use .cookies none ext.cookieParser,
    .use .staticFiles (some "/uploads") ext.uploadsStatic,
    .use .staticFiles (some "/music") ext.musicStatic,
    .get .health "/health" (healthHandler ext clock),
    .use .apiGroup (some "/api/auth") ext.authRoutes,
    .use .apiGroup (some "/api/habits") ext.habitRoutes,
    .use .apiGroup (some "/api/friends") ext.friendRoutes,
    .use .apiGroup (some "/api/music") ext.musicRoutes,
    .use .notFound none (notFoundHandler ext),
    .useError .errorFallback (errorHandler ext) ]

/-- The path prefix the socket.io server listens under (its default `path` option,
with the trailing slash it adds). -/
def gatewayChars : List Char :=
  ['/', 's', 'o', 'c', 'k', 'e', 't', '.', 'i', 'o', '/']

/-- Line 24: `new Server(httpServer, ...)` puts its own listener in front of the
Express application on `httpServer`; a request whose URL starts with `/socket.io/`
goes to the socket.io server and never enters the stack. -/
def servedByGateway (req : Request) : Bool :=
  gatewayChars.isPrefixOf req.path.data

/-- The answer of `httpServer` to one request: the socket.io server's for a path
under `/socket.io/`, otherwise that of the stack, run from a fresh state with no
error pending. -/
def handle (env : Env) (ext : Externals) (clock : TimeValue) (req : Request) : Result :=
  if servedByGateway req then { response := ext.socketServer req, errorLog := [] }
  else dispatch (app env ext clock) req {} none

/-! ## Observing a run -/

/-- How far a request gets through a list of layers. -/
inductive Progress where
  -- every layer was skipped or called `next()`; the state after the last one
  | through (st : State)
  -- the layer at position `index` ended the response
  | answered (index : Nat) (kind : StageKind) (res : Response)
  -- the layer at position `index` failed with `err`, in state `st`
  | failed (index : Nat) (kind : StageKind) (st : State) (err : Err)
  deriving DecidableEq, Repr

/-- What a layer does with a request when no error is pending: a layer that does not
apply, and a four-argument handler, lets it through unchanged. -/
def Layer.outcome : Layer → Request → State → Outcome
  | .use k m fn, req, st => if (Layer.use k m fn).applies req then fn req st else .next st
  | .get k p fn, req, st => if (Layer.get k p fn).applies req then fn req st else .next st
  | .useError _ _, _, st => .next st

/-- Follows a request through the layers, counting positions from `i`, up to the
first layer that ends the response or fails. -/
def advanceFrom (i : Nat) : List Layer → Request → State → Progress
  | [], _, st => .through st
  | l :: rest, req, st =>
    match l.outcome req st with
    | .next st' => advanceFrom (i + 1) rest req st'
    | .send res => .answered i l.kind res
    | .fail e => .failed i l.kind st e

/-- Follows a request through the layers from a given state. -/
def advance (layers : List Layer) (req : Request) (st : State) : Progress :=
  advanceFrom 0 layers req st

/-- The layers registered before the first one of the given kind. -/
def stagesBefore (k : StageKind) (layers : List Layer) : List Layer :=
  layers.takeWhile fun l => l.kind != k

/-- The generic error response to a request, with the headers of state `st`: status
500 and the fixed payload, which a HEAD request does not get. -/
def genericError (req : Request) (st : State) : Response :=
  { status := 500
    headers := st.resHeaders ++ [("Content-Type", "application/json; charset=utf-8")]
    body := if req.method = .HEAD then .empty else .json [("error", "Internal server error")] }

/-- The state in which the cross-origin stage hands a request on. -/
def afterCors (env : Env) : State :=
  { resHeaders := corsOriginHeaders (appCorsOptions env)
      ++ [("Access-Control-Allow-Credentials", "true")] }

/-- Whether a path lies under one of the four mounted route groups. -/
def apiMounted (path : String) : Bool :=
  mountMatches "/api/auth" path || mountMatches "/api/habits" path
    || mountMatches "/api/friends" path || mountMatches "/api/music" path

/-- Lines 32-42: the stages that prepare the request, with their handlers. -/
def preparationStages (env : Env) (ext : Externals) : List Layer :=
  [ .use .crossOrigin none (cors (appCorsOptions env)),
    .use .jsonBody none ext.json,
    .use .urlencodedBody none ext.urlencoded,
    .use .cookies none ext.cookieParser,
    .use .staticFiles (some "/uploads") ext.uploadsStatic,
    .use .staticFiles (some "/music") ext.musicStatic ]

/-- Lines 45-53: the stages that dispatch to a route, with their handlers. -/
def routeStages (ext : Externals) (clock : TimeValue) : List Layer :=
  [ .get .health "/health" (healthHandler ext clock),
    .use .apiGroup (some "/api/auth") ext.authRoutes,
    .use .apiGroup (some "/api/habits") ext.habitRoutes,
    .use .apiGroup (some "/api/friends") ext.friendRoutes,
    .use .apiGroup (some "/api/music") ext.musicRoutes ]

/-- Lines 56-58: the not-found fallback. -/
def notFoundStage (ext : Externals) : Layer :=
  .use .notFound none (notFoundHandler ext)

/-- Lines 61-64: the error fallback. -/
def errorStage (ext : Externals) : Layer :=
  .useError .errorFallback (errorHandler ext)

/-- Externals that never answer: every imported middleware calls `next()`. The
socket.io stand-in answers 400, as engine.io does for a request that names no
transport, and the validator comparison never finds a match. -/
def passThrough : Externals :=
  { socketServer := fun _ => { status := 400, headers := [], body := .other "Transport unknown" }
    freshValidators := fun _ _ _ => false
    json := fun _ st => .next st
    urlencoded := fun _ st => .next st
    cookieParser := fun _ st => .next st
    uploadsStatic := fun _ st => .next st
    musicStatic := fun _ st => .next st
    authRoutes := fun _ st => .next st
    habitRoutes := fun _ st => .next st
    friendRoutes := fun _ st => .next st
    musicRoutes := fun _ st => .next st }

/-- A stand-in for `express.json()` that rejects the one-character body `\x7b`, as
every JSON parser does, with the status the body parser attaches (400), and lets
every other request through. -/
def rejectingParser : Externals :=
  { passThrough with
    json := fun req st =>
      if req.body = "\x7b" then
        .fail { message := "Unexpected end of JSON input", status := some 400 }
      else .next st }

/-- A stand-in in which the habits router throws on every request. -/
def throwingHabits : Externals :=
  { passThrough with habitRoutes := fun _ _ => .fail { message := "db down" } }

/-- Stages that prepare the request: cross-origin, body parsers, cookies, static
files. -/
def StageKind.isPreparation : StageKind → Bool
  | .crossOrigin | .jsonBody | .urlencodedBody | .cookies | .staticFiles => true
  | _ => false

/-- Stages that dispatch to a route: the health check and the four API groups. -/
def StageKind.isRouteDispatch : StageKind → Bool
  | .health | .apiGroup => true
  | _ => false

/-- Stages that can match a request by its path: the static mounts, the health check,
the API groups. -/
def StageKind.isPathMatched : StageKind → Bool
  | .staticFiles | .health | .apiGroup => true
  | _ => false

/-- Whether a request is matched by none of the two static mounts, `GET /health` and
the four `/api/*` mounts. -/
def unmatched (layers : List Layer) (req : Request) : Bool :=
  layers.all fun l => !(l.kind.isPathMatched && l.applies req)

/-- The names of the stages of the stack, in order. -/
def stageKinds (env : Env) (ext : Externals) (clock : TimeValue) : List StageKind :=
  (app env ext clock).map Layer.kind

/-- An environment with no variable set. -/
def emptyEnv : Env := { FRONTEND_URL := none, PORT := none, NODE_ENV := none }

/-- The epoch as clock reading. -/
def epoch : TimeValue := ⟨0, by decide⟩

/-! ## Lemmas on the date formatter -/

theorem digitValue_digit (n : Nat) : digitValue (digit n) = some (n % 10) := by
  have h : n % 10 < 10 := Nat.mod_lt _ (by decide)
  unfold digit
  interval_cases n % 10 <;> rfl

theorem digit_ne_plus (n : Nat) : digit n ≠ '+' := by
  have h : n % 10 < 10 := Nat.mod_lt _ (by decide)
  unfold digit
  interval_cases n % 10 <;> decide

theorem digit_ne_minus (n : Nat) : digit n ≠ '-' := by
  have h : n % 10 < 10 := Nat.mod_lt _ (by decide)
  unfold digit
  interval_cases n % 10 <;> decide

theorem number_pad2 (n : Nat) (h : n < 100) : number (pad2 n) = some n := by
  simp [number, pad2, digitValue_digit, List.foldlM]
  omega

theorem number_pad3 (n : Nat) (h : n < 1000) : number (pad3 n) = some n := by
  simp [number, pad3, digitValue_digit, List.foldlM]
  omega

theorem number_pad4 (n : Nat) (h : n < 10000) : number (pad4 n) = some n := by
  simp [number, pad4, digitValue_digit, List.foldlM]
  omega

theorem number_pad6 (n : Nat) (h : n < 1000000) : number (pad6 n) = some n := by
  simp [number, pad6, digitValue_digit, List.foldlM]
  omega

/-- Position of a day inside its era: the year of the era is below 400, the day of
the year is at most 365, and a 366th day only occurs in the year before a leap year. -/
theorem doy_bounds (doe : Nat) (h : doe < 146097) :
    let c := min (doe / 36524) 3
    let q := min ((doe - 36524 * c) / 1461) 24
    let k := min ((doe - 36524 * c - 1461 * q) / 365) 3
    let yoe := 100 * c + 4 * q + k
    let doy := doe - 36524 * c - 1461 * q - 365 * k
    yoe ≤ 399 ∧ doy ≤ 365 ∧ (doy = 365 → yoe % 4 = 3 ∧ (yoe % 100 ≠ 99 ∨ yoe = 399)) := by
  intro c q k yoe doy
  omega

/-- Month and day of a day of the March-based year `yoe` of era `era`. -/
theorem month_day_bounds (yoe doy : Nat) (era : Int) (h : doy ≤ 365)
    (hleap : doy = 365 → yoe % 4 = 3 ∧ (yoe % 100 ≠ 99 ∨ yoe = 399)) :
    1 ≤ (if (5 * doy + 2) / 153 < 10 then (5 * doy + 2) / 153 + 3 else (5 * doy + 2) / 153 - 9) ∧
    (if (5 * doy + 2) / 153 < 10 then (5 * doy + 2) / 153 + 3 else (5 * doy + 2) / 153 - 9) ≤ 12 ∧
    1 ≤ doy - (153 * ((5 * doy + 2) / 153) + 2) / 5 + 1 ∧
    doy - (153 * ((5 * doy + 2) / 153) + 2) / 5 + 1 ≤
      daysInMonth
        ((yoe : Int) + era * 400 +
          (if (if (5 * doy + 2) / 153 < 10 then (5 * doy + 2) / 153 + 3
              else (5 * doy + 2) / 153 - 9) ≤ 2 then 1 else 0))
        (if (5 * doy + 2) / 153 < 10 then (5 * doy + 2) / 153 + 3
          else (5 * doy + 2) / 153 - 9) := by
  have hmp : (5 * doy + 2) / 153 ≤ 11 := by omega
  generalize hm : (5 * doy + 2) / 153 = mp at *
  interval_cases mp <;> simp [daysInMonth, isLeapYear] <;> first | omega | (split <;> omega)

/-- The calendar fields of every time value denote an existing day and time. -/
theorem dateFields_valid (t : Int) :
    1 ≤ (dateFields t).month ∧ (dateFields t).month ≤ 12 ∧ 1 ≤ (dateFields t).day ∧
      (dateFields t).day ≤ daysInMonth (dateFields t).year (dateFields t).month ∧
      (dateFields t).hour < 24 ∧ (dateFields t).minute < 60 ∧
      (dateFields t).second < 60 ∧ (dateFields t).millisecond < 1000 := by
  have hdoe : ((t / 86400000 + 719468) % 146097).toNat < 146097 := by omega
  obtain ⟨_, h1, h2⟩ := doy_bounds _ hdoe
  obtain ⟨a, b, c, d⟩ := month_day_bounds _ _ ((t / 86400000 + 719468) / 146097) h1 h2
  refine ⟨a, b, c, d, ?_, ?_, ?_, ?_⟩ <;> simp only [dateFields] <;> omega

/-- Years of time values in range fit in six digits. -/
theorem dateFields_year_bounds (t : Int) (h : -8640000000000000 ≤ t ∧ t ≤ 8640000000000000) :
    -999999 ≤ (dateFields t).year ∧ (dateFields t).year ≤ 999999 := by
  have hdoe : ((t / 86400000 + 719468) % 146097).toNat < 146097 := by omega
  obtain ⟨hy, _, _⟩ := doy_bounds _ hdoe
  simp only [dateFields]
  constructor <;> split <;> omega

/-- The checker accepts the ISO format of every valid set of calendar fields. -/
theorem isISO8601_isoChars (f : DateFields)
    (hy : -999999 ≤ f.year ∧ f.year ≤ 999999)
    (hm : 1 ≤ f.month ∧ f.month ≤ 12) (hd : 1 ≤ f.day ∧ f.day ≤ daysInMonth f.year f.month)
    (hh : f.hour < 24) (hmi : f.minute < 60) (hs : f.second < 60)
    (hms : f.millisecond < 1000) :
    isISO8601 (String.mk (isoChars f)) = true := by
  have hday : f.day < 100 := by
    have : daysInMonth f.year f.month ≤ 31 := by
      unfold daysInMonth; split_ifs <;> omega
    omega
  have e2m := number_pad2 f.month (by omega)
  have e2d := number_pad2 f.day hday
  have e2h := number_pad2 f.hour (by omega)
  have e2n := number_pad2 f.minute (by omega)
  have e2s := number_pad2 f.second (by omega)
  have e3 := number_pad3 f.millisecond hms
  simp only [pad2, pad3] at e2m e2d e2h e2n e2s e3
  by_cases h4 : 0 ≤ f.year ∧ f.year ≤ 9999
  · have e4 := number_pad4 f.year.toNat (by omega)
    simp only [pad4] at e4
    have hto : Int.ofNat f.year.toNat = f.year := by
      simp only [Int.ofNat_eq_coe]; omega
    simp [isISO8601, isoChars, yearChars, h4, pad4, pad2, pad3, parseYear, digit_ne_plus,
      digit_ne_minus, e4, e2m, e2d, e2h, e2n, e2s, e3, hto, hm.1, hm.2, hd.1, hd.2, hh, hmi, hs]
  · have e6 := number_pad6 f.year.natAbs (by omega)
    simp only [pad6] at e6
    by_cases hneg : f.year < 0
    · have hto : -Int.ofNat f.year.natAbs = f.year := by
        simp only [Int.ofNat_eq_coe]; omega
      have hnz : f.year.natAbs ≠ 0 := by omega
      have habs : -|f.year| = f.year := by rw [abs_of_neg hneg]; omega
      simp [isISO8601, isoChars, yearChars, h4, hneg, pad6, pad2, pad3, parseYear, e6, e2m,
        e2d, e2h, e2n, e2s, e3, hto, hnz, habs, hm.1, hm.2, hd.1, hd.2, hh, hmi, hs]
    · have hto : Int.ofNat f.year.natAbs = f.year := by
        simp only [Int.ofNat_eq_coe]; omega
      have habs : |f.year| = f.year := abs_of_nonneg (by omega)
      simp [isISO8601, isoChars, yearChars, h4, hneg, pad6, pad2, pad3, parseYear, e6, e2m,
        e2d, e2h, e2n, e2s, e3, hto, habs, hm.1, hm.2, hd.1, hd.2, hh, hmi, hs]

/-- Every string `toISOString` returns is a valid ISO-8601 date-time. -/
theorem toISOString_valid (t : TimeValue) : isISO8601 (toISOString t) = true := by
  obtain ⟨a, b, c, d, e, f, g, i⟩ := dateFields_valid t.val
  exact isISO8601_isoChars _ (dateFields_year_bounds t.val t.property) ⟨a, b⟩ ⟨c, d⟩ e f g i

/-! ## Lemmas on the dispatch loop -/

/-- One step of the loop with no error pending. -/
theorem dispatch_cons (l : Layer) (rest : List Layer) (req : Request) (st : State) :
    dispatch (l :: rest) req st none =
      match l.outcome req st with
      | .next st' => dispatch rest req st' none
      | .fail e => dispatch rest req st (some e)
      | .send res => { response := res, errorLog := [] } := by
  cases l with
  | use k m fn =>
    simp only [dispatch, Layer.outcome]
    split
    · rfl
    · rfl
  | get k p fn =>
    simp only [dispatch, Layer.outcome]
    split
    · rfl
    · rfl
  | useError k fn => simp only [dispatch, Layer.outcome]

/-- A run that gets through a list of layers continues with the layers after it. -/
theorem dispatch_append_of_through (pre post : List Layer) (req : Request) :
    ∀ (i : Nat) (st st' : State), advanceFrom i pre req st = .through st' →
      dispatch (pre ++ post) req st none = dispatch post req st' none := by
  induction pre with
  | nil =>
    intro i st st' h
    simp only [advanceFrom, Progress.through.injEq] at h
    simp [h]
  | cons l rest ih =>
    intro i st st' h
    rw [List.cons_append, dispatch_cons]
    simp only [advanceFrom] at h
    split at h
    · rename_i st1 ho
      rw [ho]
      exact ih _ _ _ h
    · cases h
    · cases h

/-- A run in which a layer ends the response returns that response. -/
theorem dispatch_of_answered (layers : List Layer) (req : Request) :
    ∀ (i : Nat) (st : State) (j : Nat) (k : StageKind) (res : Response),
      advanceFrom i layers req st = .answered j k res →
      dispatch layers req st none = { response := res, errorLog := [] } := by
  induction layers with
  | nil => intro i st j k res h; simp [advanceFrom] at h
  | cons l rest ih =>
    intro i st j k res h
    rw [dispatch_cons]
    simp only [advanceFrom] at h
    split at h
    · rename_i st1 ho
      rw [ho]
      exact ih _ _ _ _ _ h
    · rename_i res1 ho
      rw [ho]
      simp only [Progress.answered.injEq] at h
      simp [h.2.2]
    · cases h

/-- A run in which the layer at position `j` fails goes on, with the error pending,
through the layers after that one. -/
theorem dispatch_of_failed (layers : List Layer) (req : Request) :
    ∀ (i : Nat) (st : State) (j : Nat) (k : StageKind) (st' : State) (e : Err),
      advanceFrom i layers req st = .failed j k st' e →
      i ≤ j ∧ (∃ l, layers[j - i]? = some l ∧ l.kind = k ∧ l.outcome req st' = .fail e) ∧
        dispatch layers req st none = dispatch (layers.drop (j + 1 - i)) req st' (some e) := by
  induction layers with
  | nil => intro i st j k st' e h; simp [advanceFrom] at h
  | cons l rest ih =>
    intro i st j k st' e h
    rw [dispatch_cons]
    simp only [advanceFrom] at h
    split at h
    · rename_i st1 ho
      rw [ho]
      obtain ⟨hij, ⟨l', hl', hk, hout⟩, hd⟩ := ih _ _ _ _ _ _ h
      have e1 : j - i = (j - (i + 1)) + 1 := by omega
      have e2 : j + 1 - i = (j + 1 - (i + 1)) + 1 := by omega
      refine ⟨by omega, ⟨l', ?_, hk, hout⟩, ?_⟩
      · rw [e1, List.getElem?_cons_succ]; exact hl'
      · rw [e2, List.drop_succ_cons]; exact hd
    · cases h
    · rename_i e1 ho
      simp only [Progress.failed.injEq] at h
      obtain ⟨h1, h2, h3, h4⟩ := h
      subst h1 h2 h3 h4
      refine ⟨le_refl _, ⟨l, by simp, rfl, ho⟩, ?_⟩
      rw [ho]
      simp

/-! ## Configuration and start-up -/

/-- C5: loading the configuration is a total function of the environment, and a
variable that is absent takes its default: the cross-origin origin (of the HTTP
pipeline and of the gateway) is `http://localhost:5173` without `FRONTEND_URL`, the
port is the number 5000 without `PORT`, the environment name is `development`
without `NODE_ENV`. -/
theorem loadConfig_defaults (env : Env) :
    (loadConfig { env with FRONTEND_URL := none }).frontendOrigin = "http://localhost:5173" ∧
    (loadConfig { env with FRONTEND_URL := none }).gatewayOrigin = "http://localhost:5173" ∧
    (loadConfig { env with PORT := none }).port = JsVal.num 5000 ∧
    (loadConfig { env with NODE_ENV := none }).environmentName = "development" ∧
    (∃ c : Config, loadConfig env = c) := by
  refine ⟨rfl, rfl, rfl, rfl, _, rfl⟩

/-- C4: when the liveness query reports an error the process exits with status 1,
having printed the failure, and `listen` is never called; `listen` is called, once
and with `PORT`, exactly when the query reported no error, and the process then stays
up exactly when the listener gets bound. -/
theorem startup_probe_gates_listen (env : Env) (binds : JsVal → Bool) (e : String)
    (res : QueryResult) :
    (startup env binds (some e) res).exited = some 1 ∧
    (startup env binds (some e) res).listenCalls = [] ∧
    (startup env binds (some e) res).stdout = [] ∧
    (startup env binds none res).exited = (if binds (PORT env) then none else some 1) ∧
    (startup env binds none res).listenCalls = [PORT env] ∧
    (∀ err : Option String,
      (startup env binds err res).listenCalls = if err.isSome then [] else [PORT env]) := by
  have hnone : (startup env binds none res).exited = (if binds (PORT env) then none else some 1)
      ∧ (startup env binds none res).listenCalls = [PORT env] := by
    cases hb : binds (PORT env) <;>
      simp [startup, probeCallback, Proc.listen, Proc.run, Proc.consoleLog, hb]
  refine ⟨rfl, rfl, rfl, hnone.1, hnone.2, ?_⟩
  intro err
  cases err
  · exact hnone.2
  · rfl

/-- C10, as stated, fails: with `PORT=abc` the value handed to `listen` is the string
`abc`, not an integer, and with `PORT=8080` it is the string `8080`, not the number. -/
theorem port_not_an_integer :
    (PORT { emptyEnv with PORT := some "abc" }).isInteger = false ∧
    (startup { emptyEnv with PORT := some "abc" } (fun _ => true) none ⟨"now"⟩).listenCalls
      = [JsVal.str "abc"] ∧
    PORT { emptyEnv with PORT := some "8080" } ≠ JsVal.num 8080 := by
  decide

/-- C10 (amended): the value handed to `listen` is `PORT`; it is the number 5000 when
the variable is absent or empty, and otherwise the variable's string itself, not
parsed and so not a number. -/
theorem port_value (env : Env) (binds : JsVal → Bool) (s : String) (res : QueryResult) :
    (startup env binds none res).listenCalls = [PORT env] ∧
    PORT { env with PORT := none } = JsVal.num 5000 ∧
    PORT { env with PORT := some "" } = JsVal.num 5000 ∧
    (s ≠ "" → PORT { env with PORT := some s } = JsVal.str s ∧
      (PORT { env with PORT := some s }).isInteger = false) := by
  refine ⟨?_, rfl, rfl, ?_⟩
  · cases hb : binds (PORT env) <;>
      simp [startup, probeCallback, Proc.listen, Proc.run, Proc.consoleLog, hb]
  · intro hs
    simp [PORT, jsOr, hs, JsVal.isInteger]

/-- C10 (amended), at `PORT=3000`. -/
theorem port_value_witness :
    PORT { emptyEnv with PORT := some "3000" } = JsVal.str "3000" ∧
    (PORT { emptyEnv with PORT := some "3000" }).isInteger = false :=
  (port_value emptyEnv (fun _ => true) "3000" ⟨"now"⟩).2.2.2 (by decide)

/-- C7, as stated, fails: with `FRONTEND_URL=*` both cross-origin policies are built
with the wildcard origin together with credentials, and the cross-origin stage then
sends `Access-Control-Allow-Origin: *` with `Access-Control-Allow-Credentials: true`. -/
theorem wildcard_origin_with_credentials :
    appCorsOptions { emptyEnv with FRONTEND_URL := some "*" }
      = { origin := "*", credentials := true } ∧
    ioCorsOptions { emptyEnv with FRONTEND_URL := some "*" }
      = { origin := "*", credentials := true } ∧
    cors (appCorsOptions { emptyEnv with FRONTEND_URL := some "*" })
        { method := .GET, path := "/health" } {}
      = .next { resHeaders := [("Access-Control-Allow-Origin", "*"),
          ("Access-Control-Allow-Credentials", "true")] } := by
  decide

/-- C7 (amended): for every environment both cross-origin policies have credentials
enabled and the same origin, which is `FRONTEND_URL` taken as it is when it is set
and not empty (the wildcard included) and the default otherwise; the origin is never
empty. -/
theorem cors_policy (env : Env) (s : String) :
    (appCorsOptions env).credentials = true ∧
    (ioCorsOptions env).credentials = true ∧
    ioCorsOptions env = appCorsOptions env ∧
    (appCorsOptions env).origin ≠ "" ∧
    (appCorsOptions { env with FRONTEND_URL := none }).origin = "http://localhost:5173" ∧
    (appCorsOptions { env with FRONTEND_URL := some "" }).origin = "http://localhost:5173" ∧
    (s ≠ "" → (appCorsOptions { env with FRONTEND_URL := some s }).origin = s) := by
  refine ⟨rfl, rfl, rfl, ?_, rfl, rfl, ?_⟩
  · rcases env with ⟨f, p, n⟩
    cases f with
    | none => simp [appCorsOptions, jsOr]
    | some v =>
      by_cases hv : v = ""
      · simp [appCorsOptions, jsOr, hv]
      · simp [appCorsOptions, jsOr, hv]
  · intro hs
    simp [appCorsOptions, jsOr, hs]

/-- C7 (amended), at `FRONTEND_URL=https://habits.example`. -/
theorem cors_policy_witness :
    (appCorsOptions { emptyEnv with FRONTEND_URL := some "https://habits.example" }).origin
      = "https://habits.example" :=
  (cors_policy emptyEnv "https://habits.example").2.2.2.2.2.2 (by decide)

/-! ## The request pipeline -/

/-- The stack is the stages before the 404 handler followed by the two fallbacks. -/
theorem app_eq_before_notFound (env : Env) (ext : Externals) (clock : TimeValue) :
    app env ext clock = stagesBefore .notFound (app env ext clock)
      ++ [notFoundStage ext, errorStage ext] := rfl

/-- The stack is the stages before the health check followed by the rest. -/
theorem app_eq_before_health (env : Env) (ext : Externals) (clock : TimeValue) :
    app env ext clock = stagesBefore .health (app env ext clock)
      ++ routeStages ext clock ++ [notFoundStage ext, errorStage ext] := rfl

/-- With an error pending, every non-empty tail of the stack ends in the error
handler, which answers with the generic error and prints the error. -/
theorem dispatch_error_tail (env : Env) (ext : Externals) (clock : TimeValue)
    (req : Request) (st : State) (e : Err) (n : Nat) (hn : n ≤ 12) :
    dispatch ((app env ext clock).drop n) req st (some e)
      = { response := genericError req st, errorLog := [e] } := by
  interval_cases n <;> rfl

/-- A run of the stack in which a stage fails ends with the generic error. -/
theorem dispatch_app_of_failed (env : Env) (ext : Externals) (clock : TimeValue)
    (req : Request) (j : Nat) (k : StageKind) (st : State) (e : Err)
    (h : advance (app env ext clock) req {} = .failed j k st e) :
    dispatch (app env ext clock) req {} none
      = { response := genericError req st, errorLog := [e] } := by
  obtain ⟨_, ⟨l, hl, _, hout⟩, hd⟩ := dispatch_of_failed _ _ _ _ _ _ _ _ h
  have hj : j ≤ 11 := by
    by_contra hcon
    have h12 : 12 ≤ j := by omega
    rcases Nat.lt_or_ge 12 j with h13 | h13
    · have : (app env ext clock)[j - 0]? = none := by
        apply List.getElem?_eq_none
        simp only [app, List.length_cons, List.length_nil]
        omega
      rw [this] at hl
      cases hl
    · have hj12 : j = 12 := by omega
      subst hj12
      simp only [app, Nat.sub_zero] at hl
      simp only [List.getElem?_cons_succ, List.getElem?_cons_zero, Option.some.injEq] at hl
      subst hl
      simp [Layer.outcome] at hout
  rw [hd]
  exact dispatch_error_tail env ext clock req st e (j + 1 - 0) (by omega)

/-- The server's answer to a request that enters the stack is the stack's. -/
theorem handle_eq_dispatch (env : Env) (ext : Externals) (clock : TimeValue) (req : Request)
    (hg : servedByGateway req = false) :
    handle env ext clock req = dispatch (app env ext clock) req {} none := by
  simp [handle, hg]

/-- The configured origin is never empty. -/
theorem cors_origin_ne_empty (env : Env) : (appCorsOptions env).origin ≠ "" := by
  rcases env with ⟨f, p, n⟩
  cases f with
  | none => simp [appCorsOptions, jsOr]
  | some v =>
    by_cases hv : v = ""
    · simp [appCorsOptions, jsOr, hv]
    · simp [appCorsOptions, jsOr, hv]

/-- A path under one of the four route groups is not under `/socket.io/`. -/
theorem apiMounted_not_gateway (req : Request) (h : apiMounted req.path = true) :
    servedByGateway req = false := by
  have hs : Char.toLower 's' = 's' := by decide
  have h1 : lowerChars "/api/auth" = ['/', 'a', 'p', 'i', '/', 'a', 'u', 't', 'h'] := by decide
  have h2 : lowerChars "/api/habits"
      = ['/', 'a', 'p', 'i', '/', 'h', 'a', 'b', 'i', 't', 's'] := by decide
  have h3 : lowerChars "/api/friends"
      = ['/', 'a', 'p', 'i', '/', 'f', 'r', 'i', 'e', 'n', 'd', 's'] := by decide
  have h4 : lowerChars "/api/music"
      = ['/', 'a', 'p', 'i', '/', 'm', 'u', 's', 'i', 'c'] := by decide
  unfold servedByGateway gatewayChars
  unfold apiMounted mountMatches at h
  rw [h1, h2, h3, h4] at h
  unfold lowerChars at h
  rcases hd : req.path.data with _ | ⟨c0, _ | ⟨c1, t⟩⟩
  · rfl
  · simp [List.isPrefixOf]
  · rw [hd] at h
    by_cases hc : c1 = 's'
    · subst hc
      simp [List.isPrefixOf, hs] at h
    · simp [List.isPrefixOf, hc]
      intro _ hcon
      exact absurd hcon.symm hc

/-- The stage names of the stack, in order. -/
theorem stageKinds_eq (env : Env) (ext : Externals) (clock : TimeValue) :
    stageKinds env ext clock =
      [.crossOrigin, .jsonBody, .urlencodedBody, .cookies, .staticFiles, .staticFiles,
       .health, .apiGroup, .apiGroup, .apiGroup, .apiGroup, .notFound, .errorFallback] := rfl

/-- The stage name at a position of the stack is the name of the layer there. -/
theorem stageKinds_getElem (env : Env) (ext : Externals) (clock : TimeValue) (i : Nat)
    (a : Layer) (h : (app env ext clock)[i]? = some a) :
    (stageKinds env ext clock)[i]? = some a.kind := by
  simp [stageKinds, List.getElem?_map, h]

/-- In the list of stage names, preparation comes before route dispatch, route
dispatch before the not-found fallback, and everything else before the error
fallback at position 12. -/
theorem stageKinds_order (env : Env) (ext : Externals) (clock : TimeValue) (i j : Nat)
    (a b : StageKind)
    (hi : (stageKinds env ext clock)[i]? = some a)
    (hj : (stageKinds env ext clock)[j]? = some b) :
    (a.isPreparation = true → b.isRouteDispatch = true → i < j) ∧
    (a.isRouteDispatch = true → b = .notFound → i < j) ∧
    (a ≠ .errorFallback → i < 12) := by
  rw [stageKinds_eq] at hi hj
  have hi' : i < 13 := by
    by_contra hc
    rw [List.getElem?_eq_none (by simpa using hc)] at hi
    cases hi
  have hj' : j < 13 := by
    by_contra hc
    rw [List.getElem?_eq_none (by simpa using hc)] at hj
    cases hj
  interval_cases i <;> interval_cases j <;> simp at hi hj <;> subst hi hj <;>
    simp [StageKind.isPreparation, StageKind.isRouteDispatch]

/-- The layers of the preparation group carry preparation names. -/
theorem preparationStages_kind (env : Env) (ext : Externals) (a : Layer)
    (h : a ∈ preparationStages env ext) : a.kind.isPreparation = true := by
  simp only [preparationStages, List.mem_cons, List.mem_singleton, List.not_mem_nil,
    or_false] at h
  rcases h with rfl | rfl | rfl | rfl | rfl | rfl <;> rfl

/-- The layers of the route group carry route-dispatch names. -/
theorem routeStages_kind (ext : Externals) (clock : TimeValue) (a : Layer)
    (h : a ∈ routeStages ext clock) : a.kind.isRouteDispatch = true := by
  simp only [routeStages, List.mem_cons, List.mem_singleton, List.not_mem_nil,
    or_false] at h
  rcases h with rfl | rfl | rfl | rfl | rfl <;> rfl

/-- C6: the assembled stack is the six preparation stages (cross-origin, JSON body,
URL-encoded body, cookies, the two static mounts), then the five route-dispatch stages
(the health check and the four API mounts), then the not-found fallback, then the
error fallback, each with the handler `server.js` registers for it. So every
preparation stage stands before every route-dispatch stage, the not-found fallback
stands after every route-dispatch stage, and the error fallback is the last stage.
The order is the order of execution: the answer to a request that enters the stack is
that of the first stage that answers, and the error fallback's as soon as a stage
fails. -/
theorem stage_order (env : Env) (ext : Externals) (clock : TimeValue) :
    app env ext clock
      = preparationStages env ext ++ routeStages ext clock
          ++ [notFoundStage ext, errorStage ext] ∧
    (∀ (i j : Nat) (a b : Layer),
      (app env ext clock)[i]? = some a → (app env ext clock)[j]? = some b →
      a ∈ preparationStages env ext → b ∈ routeStages ext clock → i < j) ∧
    (∀ (i j : Nat) (b : Layer),
      (app env ext clock)[i]? = some b → (app env ext clock)[j]? = some (notFoundStage ext) →
      b ∈ routeStages ext clock → i < j) ∧
    (app env ext clock).getLast? = some (errorStage ext) ∧
    (∀ (i : Nat) (a : Layer),
      (app env ext clock)[i]? = some a → a.kind ≠ StageKind.errorFallback → i < 12) ∧
    stageKinds env ext clock =
      [.crossOrigin, .jsonBody, .urlencodedBody, .cookies, .staticFiles, .staticFiles,
       .health, .apiGroup, .apiGroup, .apiGroup, .apiGroup, .notFound, .errorFallback] ∧
    (∀ req : Request, servedByGateway req = false →
      (∀ (j : Nat) (k : StageKind) (res : Response),
        advance (app env ext clock) req {} = .answered j k res →
        handle env ext clock req = { response := res, errorLog := [] }) ∧
      (∀ (j : Nat) (k : StageKind) (st : State) (e : Err),
        advance (app env ext clock) req {} = .failed j k st e →
        handle env ext clock req = { response := genericError req st, errorLog := [e] })) := by
  refine ⟨rfl, ?_, ?_, rfl, ?_, rfl, ?_⟩
  · intro i j a b hi hj ha hb
    exact (stageKinds_order env ext clock i j a.kind b.kind
      (stageKinds_getElem env ext clock i a hi) (stageKinds_getElem env ext clock j b hj)).1
      (preparationStages_kind env ext a ha) (routeStages_kind ext clock b hb)
  · intro i j b hi hj hb
    exact (stageKinds_order env ext clock i j b.kind .notFound
      (stageKinds_getElem env ext clock i b hi)
      (stageKinds_getElem env ext clock j _ hj)).2.1
      (routeStages_kind ext clock b hb) rfl
  · intro i a hi hk
    exact (stageKinds_order env ext clock i i a.kind a.kind
      (stageKinds_getElem env ext clock i a hi)
      (stageKinds_getElem env ext clock i a hi)).2.2 hk
  · intro req hg
    constructor
    · intro j k res h
      rw [handle_eq_dispatch env ext clock req hg]
      exact dispatch_of_answered _ _ _ _ _ _ _ h
    · intro j k st e h
      rw [handle_eq_dispatch env ext clock req hg]
      exact dispatch_app_of_failed env ext clock req j k st e h

/-- C6, at the cookie stage (position 3) and the health check (position 6). -/
theorem stage_order_witness :
    (app emptyEnv passThrough epoch)[3]? = some (.use .cookies none passThrough.cookieParser) ∧
    (app emptyEnv passThrough epoch)[6]?
      = some (.get .health "/health" (healthHandler passThrough epoch)) ∧ 3 < 6 :=
  ⟨rfl, rfl,
    (stage_order emptyEnv passThrough epoch).2.1 3 6
      (.use .cookies none passThrough.cookieParser)
      (.get .health "/health" (healthHandler passThrough epoch)) rfl rfl
      (.tail _ (.tail _ (.tail _ (.head _)))) (.head _)⟩

/-- C2, as stated, fails: a `HEAD /api/habits` on which the habits router throws is
answered with status 500 and no body, not with the body
`error: Internal server error`. -/
theorem head_failure_has_no_body :
    advance (app emptyEnv throwingHabits epoch) { method := .HEAD, path := "/api/habits" } {}
      = .failed 8 .apiGroup (afterCors emptyEnv) { message := "db down" } ∧
    (handle emptyEnv throwingHabits epoch
      { method := .HEAD, path := "/api/habits" }).response.status = 500 ∧
    (handle emptyEnv throwingHabits epoch
      { method := .HEAD, path := "/api/habits" }).response.body = .empty := by
  decide

/-- C2 (amended): whenever a request enters the stack and some stage fails on it
with an error `e`, the response has status 500; its body is exactly the object with
the single field `error` set to `Internal server error`, except that a HEAD request
gets no body. The error goes to the log only, and any two failing runs with the same
method that had set the same headers get the same response, whatever their errors. -/
theorem failure_gets_generic_error (env : Env) (ext : Externals) (clock : TimeValue)
    (req : Request) (j : Nat) (k : StageKind) (st : State) (e : Err)
    (hg : servedByGateway req = false)
    (h : advance (app env ext clock) req {} = .failed j k st e) :
    (handle env ext clock req).response.status = 500 ∧
    (handle env ext clock req).response.body
      = (if req.method = .HEAD then .empty else .json [("error", "Internal server error")]) ∧
    (handle env ext clock req).errorLog = [e] ∧
    (∀ (ext2 : Externals) (req2 : Request) (j2 : Nat) (k2 : StageKind) (e2 : Err),
      servedByGateway req2 = false → req2.method = req.method →
      advance (app env ext2 clock) req2 {} = .failed j2 k2 st e2 →
      (handle env ext2 clock req2).response = (handle env ext clock req).response) := by
  have hmain : handle env ext clock req = { response := genericError req st, errorLog := [e] } := by
    rw [handle_eq_dispatch env ext clock req hg]
    exact dispatch_app_of_failed env ext clock req j k st e h
  refine ⟨by rw [hmain]; rfl, by rw [hmain]; rfl, by rw [hmain], ?_⟩
  intro ext2 req2 j2 k2 e2 hg2 hm2 h2
  rw [hmain, handle_eq_dispatch env ext2 clock req2 hg2,
    dispatch_app_of_failed env ext2 clock req2 j2 k2 st e2 h2]
  simp [genericError, hm2]

/-- C2 (amended), for the habits router throwing on `GET /api/habits`. -/
theorem failure_gets_generic_error_witness :
    (handle emptyEnv throwingHabits epoch
      { method := .GET, path := "/api/habits" }).response.status = 500 ∧
    (handle emptyEnv throwingHabits epoch
      { method := .GET, path := "/api/habits" }).response.body
      = .json [("error", "Internal server error")] :=
  ⟨(failure_gets_generic_error emptyEnv throwingHabits epoch
      { method := .GET, path := "/api/habits" } 8 .apiGroup (afterCors emptyEnv)
      { message := "db down" } (by decide) (by decide)).1,
   (failure_gets_generic_error emptyEnv throwingHabits epoch
      { method := .GET, path := "/api/habits" } 8 .apiGroup (afterCors emptyEnv)
      { message := "db down" } (by decide) (by decide)).2.1⟩

/-- C8, as stated, fails: an `OPTIONS /api/auth/login` with the malformed body `\x7b`,
which the JSON parser would reject, is answered 204 by the cross-origin stage; the
body-parse stage never runs on it. A `HEAD /api/auth/login` with the same body is
answered 500 without a body. -/
theorem options_with_malformed_body_is_204 :
    apiMounted "/api/auth/login" = true ∧
    rejectingParser.json
        { method := .OPTIONS, path := "/api/auth/login",
          headers := [("content-type", "application/json")], body := "\x7b" }
        (afterCors emptyEnv)
      = .fail { message := "Unexpected end of JSON input", status := some 400 } ∧
    advance (app emptyEnv rejectingParser epoch)
        { method := .OPTIONS, path := "/api/auth/login",
          headers := [("content-type", "application/json")], body := "\x7b" } {}
      = .answered 0 .crossOrigin
          { status := 204
            headers := (afterCors emptyEnv).resHeaders
              ++ [("Access-Control-Allow-Methods", "GET,HEAD,PUT,PATCH,POST,DELETE"),
                  ("Vary", "Access-Control-Request-Headers"), ("Content-Length", "0")]
            body := .empty } ∧
    (handle emptyEnv rejectingParser epoch
        { method := .OPTIONS, path := "/api/auth/login",
          headers := [("content-type", "application/json")], body := "\x7b" }).response.status
      = 204 ∧
    (handle emptyEnv rejectingParser epoch
        { method := .HEAD, path := "/api/auth/login",
          headers := [("content-type", "application/json")], body := "\x7b" }).response.status
      = 500 ∧
    (handle emptyEnv rejectingParser epoch
        { method := .HEAD, path := "/api/auth/login",
          headers := [("content-type", "application/json")], body := "\x7b" }).response.body
      = .empty := by
  decide

/-- C8 (amended): for every request to a mounted route group, other than an OPTIONS
request (which the cross-origin stage answers itself before any body is parsed), on
whose body the JSON body-parse stage fails, with whatever error and whatever status
attached to it: the stage fails at position 1 of the stack, before every route group,
and the response is the generic error response, status 500 with the body
`error: Internal server error` (no body for a HEAD request); no later stage takes
part: the result is the same whatever the stages after the body parser are. -/
theorem body_parse_failure_gets_generic_error (env : Env) (ext : Externals)
    (clock : TimeValue) (req : Request) (e : Err)
    (hroute : apiMounted req.path = true) (hm : req.method ≠ .OPTIONS)
    (hfail : ext.json req (afterCors env) = .fail e) :
    advance (app env ext clock) req {} = .failed 1 .jsonBody (afterCors env) e ∧
    (handle env ext clock req).response.status = 500 ∧
    (handle env ext clock req).response.body
      = (if req.method = .HEAD then .empty else .json [("error", "Internal server error")]) ∧
    (handle env ext clock req).errorLog = [e] ∧
    (∀ ext2 : Externals, ext2.json = ext.json →
      handle env ext2 clock req = handle env ext clock req) := by
  have hg := apiMounted_not_gateway req hroute
  have hne : (appCorsOptions env).origin ≠ "" := (cors_origin_ne_empty env)
  have hreach : cors (appCorsOptions env) req {} = .next (afterCors env) := by
    have hcred : (appCorsOptions env).credentials = true := rfl
    simp [cors, hne, hm, afterCors, corsCredentialsHeaders, hcred]
  have hadv : ∀ x : Externals, x.json = ext.json →
      advance (app env x clock) req {} = .failed 1 .jsonBody (afterCors env) e := by
    intro x hx
    simp [advance, advanceFrom, app, Layer.outcome, Layer.applies, Layer.kind, hreach, hx,
      hfail]
  have hall : ∀ x : Externals, x.json = ext.json →
      handle env x clock req
        = { response := genericError req (afterCors env), errorLog := [e] } := by
    intro x hx
    rw [handle_eq_dispatch env x clock req hg]
    exact dispatch_app_of_failed env x clock req 1 .jsonBody _ e (hadv x hx)
  have hmain := hall ext rfl
  refine ⟨hadv ext rfl, by rw [hmain]; rfl, by rw [hmain]; rfl, by rw [hmain], ?_⟩
  intro ext2 hjson
  rw [hmain, hall ext2 hjson]

/-- C8 (amended), at `POST /api/auth/login` with the body `\x7b`, rejected with
status 400. -/
theorem body_parse_failure_gets_generic_error_witness :
    (handle emptyEnv rejectingParser epoch
      { method := .POST, path := "/api/auth/login",
        headers := [("content-type", "application/json")], body := "\x7b" }).response.status
      = 500 :=
  (body_parse_failure_gets_generic_error emptyEnv rejectingParser epoch
    { method := .POST, path := "/api/auth/login",
      headers := [("content-type", "application/json")], body := "\x7b" }
    { message := "Unexpected end of JSON input", status := some 400 }
    (by decide) (by decide) (by decide)).2.1

/-- C1, as stated, fails. Each of these requests is matched by none of the static
mounts, the health check and the API mounts, and none gets status 404 with the body
`error: Route not found`: a `POST /nope` whose body the JSON parser rejects is answered
500 by the error fallback; an `OPTIONS /nope` is answered 204 by the cross-origin
stage; a `HEAD /nope` is answered 404 without a body; a `GET /socket.io/` is answered
by the socket.io server (400 for a request that names no transport). -/
theorem unmatched_request_not_404 :
    unmatched (app emptyEnv rejectingParser epoch)
        { method := .POST, path := "/nope",
          headers := [("content-type", "application/json")], body := "\x7b" } = true ∧
    (handle emptyEnv rejectingParser epoch
        { method := .POST, path := "/nope",
          headers := [("content-type", "application/json")], body := "\x7b" }).response.status
      = 500 ∧
    unmatched (app emptyEnv passThrough epoch) { method := .OPTIONS, path := "/nope" } = true ∧
    (handle emptyEnv passThrough epoch { method := .OPTIONS, path := "/nope" }).response.status
      = 204 ∧
    unmatched (app emptyEnv passThrough epoch) { method := .HEAD, path := "/nope" } = true ∧
    (handle emptyEnv passThrough epoch { method := .HEAD, path := "/nope" }).response.status
      = 404 ∧
    (handle emptyEnv passThrough epoch { method := .HEAD, path := "/nope" }).response.body
      = .empty ∧
    unmatched (app emptyEnv passThrough epoch) { method := .GET, path := "/socket.io/" }
      = true ∧
    servedByGateway { method := .GET, path := "/socket.io/" } = true ∧
    (handle emptyEnv passThrough epoch { method := .GET, path := "/socket.io/" }).response
      = passThrough.socketServer { method := .GET, path := "/socket.io/" } ∧
    (handle emptyEnv passThrough epoch
      { method := .GET, path := "/socket.io/" }).response.status = 400 := by
  decide

/-- C1 (amended): every request that enters the stack (any method, any path not under
`/socket.io/`) and that each stage registered before the 404 handler skips or passes
on with `next()` is answered with status 404; its body is exactly
`error: Route not found`, except that a HEAD request gets no body; nothing is
logged. -/
theorem not_found_when_passed_on (env : Env) (ext : Externals) (clock : TimeValue)
    (req : Request) (st : State)
    (hg : servedByGateway req = false)
    (h : advance (stagesBefore .notFound (app env ext clock)) req {} = .through st) :
    (handle env ext clock req).response.status = 404 ∧
    (handle env ext clock req).response.body
      = (if req.method = .HEAD then .empty else .json [("error", "Route not found")]) ∧
    (handle env ext clock req).errorLog = [] := by
  have hd : handle env ext clock req
      = dispatch [notFoundStage ext, errorStage ext] req st none := by
    rw [handle_eq_dispatch env ext clock req hg, app_eq_before_notFound]
    exact dispatch_append_of_through _ _ req 0 {} st h
  rw [hd]
  exact ⟨rfl, rfl, rfl⟩

/-- C1 (amended), at `DELETE /nope`. -/
theorem not_found_when_passed_on_witness :
    (handle emptyEnv passThrough epoch { method := .DELETE, path := "/nope" }).response.status
      = 404 ∧
    (handle emptyEnv passThrough epoch { method := .DELETE, path := "/nope" }).response.body
      = .json [("error", "Route not found")] :=
  ⟨(not_found_when_passed_on emptyEnv passThrough epoch { method := .DELETE, path := "/nope" }
      (afterCors emptyEnv) (by decide) (by decide)).1,
   (not_found_when_passed_on emptyEnv passThrough epoch { method := .DELETE, path := "/nope" }
      (afterCors emptyEnv) (by decide) (by decide)).2.1⟩

/-- C3, as stated, fails: `POST /health` is not served by the health check, which is
registered for GET, and falls to the 404 handler; `HEAD /health` is answered 200
without a body; a `GET /health` with `If-None-Match: *` is answered 304 without a
body. -/
theorem post_health_is_404 :
    (handle emptyEnv passThrough epoch { method := .POST, path := "/health" }).response.status
      = 404 ∧
    (handle emptyEnv passThrough epoch { method := .POST, path := "/health" }).response.body
      = .json [("error", "Route not found")] ∧
    (handle emptyEnv passThrough epoch { method := .HEAD, path := "/health" }).response.status
      = 200 ∧
    (handle emptyEnv passThrough epoch { method := .HEAD, path := "/health" }).response.body
      = .empty ∧
    (handle emptyEnv passThrough epoch
      { method := .GET, path := "/health",
        headers := [("if-none-match", "*")] }).response.status = 304 ∧
    (handle emptyEnv passThrough epoch
      { method := .GET, path := "/health",
        headers := [("if-none-match", "*")] }).response.body = .empty := by
  decide

/-- C3 (amended): every GET request to `/health` that the stages registered before the
health check pass on and that Express does not find fresh (a request without
`If-None-Match` and `If-Modified-Since` never is) is answered with status 200 and the
body `status: ok`, `timestamp: t`, where `t`, the clock reading in ISO format, is a
valid ISO-8601 string. A HEAD request under the same conditions is answered 200
without a body, and a request with any other method is not dispatched to the health
check. -/
theorem health_get_or_head (env : Env) (ext : Externals) (clock : TimeValue)
    (req : Request) (st : State)
    (hm : req.method = .GET ∨ req.method = .HEAD) (hp : req.path = "/health")
    (h : advance (stagesBefore .health (app env ext clock)) req {} = .through st)
    (hstale : fresh ext req st [("status", "ok"), ("timestamp", toISOString clock)] = false) :
    (handle env ext clock req).response.status = 200 ∧
    (handle env ext clock req).response.body
      = (if req.method = .HEAD then .empty
         else .json [("status", "ok"), ("timestamp", toISOString clock)]) ∧
    isISO8601 (toISOString clock) = true ∧
    (∀ r : Request, conditional r = false → ∀ (s : State) (p : List (String × String)),
      fresh ext r s p = false) ∧
    (∀ r : Request, r.method ≠ .GET → r.method ≠ .HEAD →
      (Layer.get .health "/health" (healthHandler ext clock)).applies r = false) := by
  have hg : servedByGateway req = false := by
    simp only [servedByGateway, hp]
    decide
  have happ : (Layer.get .health "/health" (healthHandler ext clock)).applies req = true := by
    rcases hm with hm | hm <;> simp [Layer.applies, hp, hm, getHandlesMethod] <;> decide
  have hd : handle env ext clock req
      = { response :=
            { status := 200
              headers := st.resHeaders ++ [("Content-Type", "application/json; charset=utf-8")]
              body := if req.method = .HEAD then .empty
                else .json [("status", "ok"), ("timestamp", toISOString clock)] }
          errorLog := [] } := by
    rw [handle_eq_dispatch env ext clock req hg, app_eq_before_health, List.append_assoc,
      dispatch_append_of_through _ _ req 0 {} st h]
    simp only [routeStages, List.cons_append, dispatch_cons]
    simp [Layer.outcome, happ, healthHandler, resJson, reqFresh, hstale]
  rw [hd]
  refine ⟨rfl, rfl, toISOString_valid clock, ?_, ?_⟩
  · intro r hr s p
    simp [fresh, hr]
  · intro r h1 h2
    cases hr : r.method <;> simp_all [Layer.applies, getHandlesMethod]

/-- C3 (amended), at `GET /health`. -/
theorem health_get_or_head_witness :
    (handle emptyEnv passThrough epoch { method := .GET, path := "/health" }).response.body
      = .json [("status", "ok"), ("timestamp", toISOString epoch)] :=
  (health_get_or_head emptyEnv passThrough epoch { method := .GET, path := "/health" }
    (afterCors emptyEnv) (Or.inl rfl) rfl (by decide) (by decide)).2.1

/-- Dropping the `Origin` header does not change the lookup of the header the
cross-origin stage reads. -/
theorem lookup_filter_origin (hs : List (String × String)) :
    (hs.filter fun h => h.1 != "origin").lookup "access-control-request-headers"
      = hs.lookup "access-control-request-headers" := by
  induction hs with
  | nil => rfl
  | cons h rest ih =>
    obtain ⟨k, v⟩ := h
    by_cases hk : k = "origin"
    · subst hk
      have hne : ("access-control-request-headers" == "origin") = false := by decide
      simp [List.filter, List.lookup, hne, ih]
    · have hk' : (k != "origin") = true := by simpa using hk
      simp only [List.filter, hk', List.lookup, ih]

/-- C9, as stated, fails: a `GET /health` carrying `Origin: http://evil.example`, which
is not the configured origin, is not rejected by the cross-origin stage: the stage
calls `next()`, and the health check, a later stage, answers 200. -/
theorem foreign_origin_not_rejected :
    Request.header
        { method := .GET, path := "/health", headers := [("origin", "http://evil.example")] }
        "origin" ≠ some (appCorsOptions emptyEnv).origin ∧
    cors (appCorsOptions emptyEnv)
        { method := .GET, path := "/health", headers := [("origin", "http://evil.example")] } {}
      = .next { resHeaders := [("Access-Control-Allow-Origin", "http://localhost:5173"),
          ("Vary", "Origin"), ("Access-Control-Allow-Credentials", "true")] } ∧
    (handle emptyEnv passThrough epoch
        { method := .GET, path := "/health",
          headers := [("origin", "http://evil.example")] }).response.status = 200 := by
  decide

/-- C9 (amended): the cross-origin stage never rejects a request and never looks at
its `Origin` header. A request with a method other than OPTIONS, whatever its origin,
is passed on to the later stages with `Access-Control-Allow-Origin` set to the
configured frontend origin and `Access-Control-Allow-Credentials: true` added to the
response headers; an OPTIONS request is answered by the stage itself with status 204
and the same two headers. -/
theorem cors_never_rejects (env : Env) (req : Request) (st : State) :
    (∀ e : Err, cors (appCorsOptions env) req st ≠ .fail e) ∧
    (∀ hs : List (String × String),
      cors (appCorsOptions env) { req with headers := hs } st
        = cors (appCorsOptions env)
            { req with headers := hs.filter fun h => h.1 != "origin" } st) ∧
    (req.method ≠ .OPTIONS →
      cors (appCorsOptions env) req st
        = .next { st with resHeaders := st.resHeaders
            ++ corsOriginHeaders (appCorsOptions env)
            ++ [("Access-Control-Allow-Credentials", "true")] }) ∧
    (req.method = .OPTIONS →
      ∃ res, cors (appCorsOptions env) req st = .send res ∧ res.status = 204 ∧
        ("Access-Control-Allow-Credentials", "true") ∈ res.headers ∧
        ("Access-Control-Allow-Origin", (appCorsOptions env).origin) ∈ res.headers) ∧
    ("Access-Control-Allow-Origin", (appCorsOptions env).origin)
      ∈ corsOriginHeaders (appCorsOptions env) := by
  have hne : (appCorsOptions env).origin ≠ "" := by
    rcases env with ⟨f, p, n⟩
    cases f with
    | none => simp [appCorsOptions, jsOr]
    | some v =>
      by_cases hv : v = ""
      · simp [appCorsOptions, jsOr, hv]
      · simp [appCorsOptions, jsOr, hv]
  have hcred : (appCorsOptions env).credentials = true := rfl
  have hmem : ("Access-Control-Allow-Origin", (appCorsOptions env).origin)
      ∈ corsOriginHeaders (appCorsOptions env) := by
    unfold corsOriginHeaders
    split
    · rename_i hstar
      simp [hstar]
    · simp
  refine ⟨?_, ?_, ?_, ?_, hmem⟩
  · intro e
    simp only [cors, hne, if_false]
    split <;> simp
  · intro hs
    simp only [cors, corsPreflightHeaders, Request.header, lookup_filter_origin]
  · intro hopt
    simp [cors, hne, hopt, corsCredentialsHeaders, hcred]
  · intro hopt
    refine ⟨{ status := 204
              headers := st.resHeaders ++ corsOriginHeaders (appCorsOptions env)
                ++ corsCredentialsHeaders (appCorsOptions env)
                ++ corsPreflightHeaders req ++ [("Content-Length", "0")]
              body := .empty },
      by simp only [cors, hne, if_false, hopt, if_true], rfl, ?_, ?_⟩
    · simp [corsCredentialsHeaders, hcred]
    · simp only [List.mem_append]
      exact Or.inl (Or.inl (Or.inl (Or.inr hmem)))

/-- C9 (amended), at a `POST /api/habits` from a foreign origin. -/
theorem cors_never_rejects_witness :
    cors (appCorsOptions emptyEnv)
        { method := .POST, path := "/api/habits",
          headers := [("origin", "http://evil.example")] } {}
      = .next { resHeaders := [("Access-Control-Allow-Origin", "http://localhost:5173"),
          ("Vary", "Origin"), ("Access-Control-Allow-Credentials", "true")] } :=
  (cors_never_rejects emptyEnv
    { method := .POST, path := "/api/habits", headers := [("origin", "http://evil.example")] }
    {}).2.2.1 (by decide)

end HabitTracker
